import Mathlib

/-!
Verification model of the nestjs-udp repository: a UDP transport layer for
NestJS microservices.  The model shallowly embeds the JavaScript/TypeScript
source: JSON values become the inductive `JValue`, `JSON.stringify` becomes
`JValue.stringify`, per-datagram handling becomes pure functions from the
parsed datagram to an outcome (a list of outbound sends, or an uncaught
exception), and the crypto utilities are parametrised over the platform
primitives (AES-256-GCM, HMAC-SHA256, JSON.parse) they call.

Conventions carried through the whole file:
* A JavaScript value that may be `undefined` is modelled as `Option JValue`
  (`none` = `undefined`); the JSON literal `null` is `JValue.null`.
* A UDP datagram's bytes are modelled by their decoded form `Option JValue`:
  `some v` when `JSON.parse` of the bytes yields `v`, `none` when the bytes
  are not valid JSON (where the source then throws a `SyntaxError`).
* Byte buffers inside the crypto utilities are modelled as `String`s; the
  base64-encoded fields of an encrypted packet are modelled by the byte
  strings they decode to (base64 is a bijective transport encoding).
-/

/-- The JSON value universe, as produced by `JSON.parse` and consumed by
`JSON.stringify`.  Numbers are modelled as integers (no claim in this
development depends on non-integral numerics). -/
inductive JValue where
  | null : JValue
  | bool (b : Bool) : JValue
  | num (n : Int) : JValue
  | str (s : String) : JValue
  | arr (elems : List JValue) : JValue
  | obj (fields : List (String × JValue)) : JValue
deriving Repr, Inhabited

/-- JSON escaping of one character, as `JSON.stringify` performs on the
characters of a string. -/
def jsonEscapeChar (c : Char) : String :=
  if c = '"' then "\\\""
  else if c = '\\' then "\\\\"
  else if c = '\n' then "\\n"
  else if c = '\r' then "\\r"
  else if c = '\t' then "\\t"
  else if c.toNat < 32 then
    "\\u00" ++ String.mk [(Nat.digitChar (c.toNat / 16)), (Nat.digitChar (c.toNat % 16))]
  else String.singleton c

/-- A JSON string literal: the escaped characters wrapped in double quotes. -/
def jsonQuote (s : String) : String :=
  "\"" ++ String.join (s.data.map jsonEscapeChar) ++ "\""

mutual

/-- `JSON.stringify` on a JSON value (object keys in insertion order, no
whitespace), as Node produces for the wire packets of this repository. -/
def JValue.stringify : JValue → String
  | JValue.null => "null"
  | JValue.bool b => if b then "true" else "false"
  | JValue.num n => toString n
  | JValue.str s => jsonQuote s
  | JValue.arr xs => "[" ++ stringifyElems xs ++ "]"
  | JValue.obj fs => "\x7b" ++ stringifyFields fs ++ "\x7d"

/-- Comma-separated serialization of the elements of a JSON array. -/
def stringifyElems : List JValue → String
  | [] => ""
  | [x] => JValue.stringify x
  | x :: y :: rest => JValue.stringify x ++ "," ++ stringifyElems (y :: rest)

/-- Comma-separated serialization of the fields of a JSON object. -/
def stringifyFields : List (String × JValue) → String
  | [] => ""
  | [(k, v)] => jsonQuote k ++ ":" ++ JValue.stringify v
  | (k, v) :: f :: rest =>
      jsonQuote k ++ ":" ++ JValue.stringify v ++ "," ++ stringifyFields (f :: rest)

end

/-- Lookup of an object field by key; with duplicate keys the last one
wins, as in a JavaScript object built by `JSON.parse`. -/
def lookupField : List (String × JValue) → String → Option JValue
  | [], _ => none
  | (k, v) :: rest, key =>
      match lookupField rest key with
      | some r => some r
      | none => if k = key then some v else none

/-- JavaScript property access `v.key` on a non-null, non-undefined value:
an object yields its field (or `undefined`), every other receiver (string,
number, boolean, array) has no such own property and yields `undefined`. -/
def propAccess (v : JValue) (key : String) : Option JValue :=
  match v with
  | JValue.obj fields => lookupField fields key
  | _ => none

/-- Property access as consumed by the nullish-coalescing operator `??`:
a field whose value is `null` counts the same as an absent field. -/
def propNullish (v : JValue) (key : String) : Option JValue :=
  match propAccess v key with
  | some JValue.null => none
  | r => r

/-- JavaScript truthiness of a JSON value. -/
def truthy : JValue → Bool
  | JValue.null => false
  | JValue.bool b => b
  | JValue.num n => n != 0
  | JValue.str s => s != ""
  | JValue.arr _ => true
  | JValue.obj _ => true

/-- Truthiness of a possibly-undefined value (`undefined` is falsy). -/
def truthyOpt : Option JValue → Bool
  | none => false
  | some v => truthy v

mutual

/-- JavaScript `String(v)` / template-literal coercion of a JSON value:
objects render as `[object Object]`, arrays join their elements with
commas (null elements render empty). -/
def jsToString : JValue → String
  | JValue.null => "null"
  | JValue.bool b => if b then "true" else "false"
  | JValue.num n => toString n
  | JValue.str s => s
  | JValue.arr xs => jsToStringElems xs
  | JValue.obj _ => "[object Object]"

/-- Array-element coercion for `String(array)`: `null` elements render as
the empty string, others as their `String(...)` form, joined by commas. -/
def jsToStringElems : List JValue → String
  | [] => ""
  | [JValue.null] => ""
  | [x] => jsToString x
  | JValue.null :: y :: rest => "," ++ jsToStringElems (y :: rest)
  | x :: y :: rest => jsToString x ++ "," ++ jsToStringElems (y :: rest)

end

/-- Multicast configuration of `UdpServerOptions` (src/udp.interface.ts). -/
structure UdpMulticastOptions where
  enabled : Bool
  address : String
deriving Repr, DecidableEq

/-- `UdpServerOptions` (src/udp.interface.ts): socket type (default udp4),
bind port, bind host (default 0.0.0.0 on the server side), and optional
multicast configuration.  Shared by the server and the client proxy. -/
structure UdpServerOptions where
  type : Option String
  port : Int
  host : Option String
  multicast : Option UdpMulticastOptions
deriving Repr, DecidableEq

/-- JavaScript's `String.prototype.startsWith`: character-for-character
(hence case-sensitive) comparison of the marker against the start of the
string. -/
def jsStartsWith (s marker : String) : Bool :=
  marker.data.isPrefixOf s.data

/-- Modelled from the spec: the protocol prefix constant `UdpPatternPrefix`
lives in src/udp.constant.ts, which is absent from the provided sources
(only its importers are present).  The spec calls it "a fixed literal";
the README's examples register and send the pattern "UDP:ping" through the
decorator that requires `pattern.startsWith(UdpPatternPrefix)`, fixing the
constant's casing as "UDP:". -/
def UdpPatternPrefix : String := "UDP:"

/-- The record returned by `UdpServer.formatPacket`: the normalized pattern,
the payload, the resolved host/port and the effective multicast flag. -/
structure FormattedPacket where
  pattern : JValue
  data : JValue
  host : JValue
  port : JValue
  useMulticast : Bool
deriving Repr

/-- `UdpServer.formatPacket` (part_000 lines 57-73).  The input is the
parse result of the datagram bytes (`none` = `JSON.parse` threw).  The
try/catch in the source also swallows the `TypeError` thrown by
`rawPattern.host` when the decoded value has no usable `pattern` property
(the property is absent or `null`, or the decoded value is not an object),
so all those cases collapse to `none` exactly as in the source. -/
def UdpServer.formatPacket (opts : UdpServerOptions) (parsed : Option JValue) :
    Option FormattedPacket :=
  match parsed with
  | none => none
  | some decoded =>
    match decoded with
    | JValue.obj fields =>
      match lookupField fields "pattern" with
      | none => none
      | some JValue.null => none
      | some rp =>
        let isObjectPattern : Bool :=
          match rp with
          | JValue.obj _ => true
          | JValue.arr _ => true
          | _ => false
        let pattern := if isObjectPattern then rp else JValue.obj [("cmd", rp)]
        let host := (propNullish rp "host").getD (JValue.str (opts.host.getD "0.0.0.0"))
        let port := (propNullish rp "port").getD (JValue.num opts.port)
        let useMulticast := truthyOpt (propAccess rp "multicast")
          || (match opts.multicast with
              | some mc => mc.enabled
              | none => false)
        let data := (lookupField fields "data").getD JValue.null
        some ⟨pattern, data, host, port, useMulticast⟩
    | _ => none

/-- `UdpServer.serialize` (part_000 lines 75-77): a response value is sent
as the JSON bytes of an object with the single field `data`. -/
def UdpServer.serialize (response : JValue) : String :=
  (JValue.obj [("data", response)]).stringify

/-- The sender coordinates delivered with an inbound datagram (dgram's
`RemoteInfo`, restricted to the fields this repository uses). -/
structure RemoteInfo where
  address : String
  port : Int
deriving Repr, DecidableEq

/-- The per-message context handed to a handler (part_000 lines 106-110). -/
structure UdpContext where
  rinfo : RemoteInfo
  timestamp : Int
  rawPacket : FormattedPacket

/-- The observable behaviour of one handler invocation: a synchronous
throw carrying the error's message, or a stream of produced values
(`JValue.null` standing for a null/undefined value in the stream; a plain
or promised return value is the one-element case). -/
inductive HandlerOutcome where
  | throws (message : String)
  | returns (values : List JValue)

/-- The external handler registry consulted by `getHandlerByPattern`:
lookup by exact command string. -/
def HandlerRegistry := String → Option (JValue → UdpContext → HandlerOutcome)

/-- The outcome of handling one inbound datagram: either an uncaught
exception escapes `handlePacket` (crashing the router process), or a list
of outbound response datagrams (payload bytes and destination) is sent. -/
inductive RouterOutcome where
  | crash (errorName : String)
  | sends (responses : List (String × RemoteInfo))
deriving Repr, DecidableEq

/-- `UdpServer.sendResponse` (part_000 lines 134-147): a null/undefined
response is suppressed, any other value is serialized and sent back to the
sender's address and port. -/
def UdpServer.sendResponse (response : JValue) (rinfo : RemoteInfo) :
    List (String × RemoteInfo) :=
  match response with
  | JValue.null => []
  | r => [(UdpServer.serialize r, rinfo)]

/-- `UdpServer.handlePacket` (part_000 lines 82-119).  Note the source
guards `packet.pattern?.` with optional chaining but then calls
`.cmd.startsWith(...)` unguarded: when the normalized pattern has no
string `cmd` property that call throws a `TypeError` outside every
try/catch, modelled as `RouterOutcome.crash`. -/
def UdpServer.handlePacket (opts : UdpServerOptions) (reg : HandlerRegistry)
    (rinfo : RemoteInfo) (timestamp : Int) (parsed : Option JValue) : RouterOutcome :=
  match UdpServer.formatPacket opts parsed with
  | none => RouterOutcome.sends (UdpServer.sendResponse (JValue.str "Invalid JSON format") rinfo)
  | some packet =>
    if truthy packet.pattern = false then
      RouterOutcome.sends
        (UdpServer.sendResponse (JValue.str "Missing pattern in message") rinfo)
    else
      match propAccess packet.pattern "cmd" with
      | some (JValue.str cmd) =>
        if jsStartsWith cmd UdpPatternPrefix = false then
          RouterOutcome.sends (UdpServer.sendResponse
            (JValue.str ("Invalid pattern prefix. Expect prefix: \"" ++ UdpPatternPrefix ++ ":\""))
            rinfo)
        else
          match reg cmd with
          | none =>
            RouterOutcome.sends (UdpServer.sendResponse
              (JValue.str ("No handler found for pattern: " ++ jsToString packet.pattern)) rinfo)
          | some handler =>
            match handler packet.data ⟨rinfo, timestamp, packet⟩ with
            | HandlerOutcome.throws m =>
                RouterOutcome.sends (UdpServer.sendResponse
                  (JValue.str ("Internal server error. " ++ m)) rinfo)
            | HandlerOutcome.returns vals =>
                RouterOutcome.sends
                  ((vals.map (fun v => UdpServer.sendResponse v rinfo)).flatten)
      | _ => RouterOutcome.crash "TypeError"

/-- The socket's message-event loop: every received datagram is handled by
one independent `handlePacket` invocation; the server keeps no per-datagram
state, so later datagrams are processed whatever earlier ones did. -/
def UdpServer.handleDatagrams (opts : UdpServerOptions) (reg : HandlerRegistry) :
    List (Option JValue × RemoteInfo × Int) → List RouterOutcome
  | [] => []
  | (parsed, rinfo, ts) :: rest =>
      UdpServer.handlePacket opts reg rinfo ts parsed ::
        UdpServer.handleDatagrams opts reg rest

/-- One outbound datagram of the server's push primitive. -/
structure OutboundDatagram where
  payload : String
  port : Int
  address : String
deriving Repr, DecidableEq

/-- `UdpServer.sendMessage` (part_000 lines 152-161): builds the payload by
passing the object with fields `pattern` and `data` through
`UdpServer.serialize` and performs a single socket send to the target. -/
def UdpServer.sendMessage (targetHost : String) (targetPort : Int)
    (pattern : String) (data : JValue) : List OutboundDatagram :=
  [⟨UdpServer.serialize (JValue.obj [("pattern", JValue.str pattern), ("data", data)]),
    targetPort, targetHost⟩]

/-- The socket family the server constructor passes to `createSocket`
(part_000 line 16): the configured type, defaulting to udp4. -/
def UdpServer.socketType (opts : UdpServerOptions) : String :=
  opts.type.getD "udp4"

/-- The socket family the client proxy constructor passes to `createSocket`
(udp.client.ts line 10): the literal "udp4", whatever the options say. -/
def UdpClientProxy.socketType (_opts : UdpServerOptions) : String :=
  "udp4"

/-- The record returned by the client proxy's `formatPacket`: the outbound
pattern (stripped to its `cmd` for object patterns), the payload, and the
resolved destination.  The host may be absent (`undefined`) when neither
the pattern nor the client options carry one. -/
structure ClientFormattedPacket where
  pattern : JValue
  data : JValue
  host : Option JValue
  port : JValue
  useMulticast : Bool

/-- `UdpClientProxy.formatPacket` (udp.client.ts lines 58-72).  An object
pattern is reduced to an object with only its `cmd` field (an absent `cmd`
yields an empty object, as `JSON.stringify` drops an undefined field); a
string pattern passes through.  The destination host and port prefer the
pattern's own fields over the client's configured defaults.  There is no
try/catch here: a `null` pattern makes `rawPattern.host` throw, modelled
as `none`. -/
def UdpClientProxy.formatPacket (opts : UdpServerOptions)
    (rawPattern data : JValue) : Option ClientFormattedPacket :=
  match rawPattern with
  | JValue.null => none
  | rp =>
    let isObjectPattern : Bool :=
      match rp with
      | JValue.obj _ => true
      | JValue.arr _ => true
      | _ => false
    let pattern :=
      if isObjectPattern then
        match propAccess rp "cmd" with
        | some c => JValue.obj [("cmd", c)]
        | none => JValue.obj []
      else rp
    let host := (propNullish rp "host").orElse (fun _ => opts.host.map JValue.str)
    let port := (propNullish rp "port").getD (JValue.num opts.port)
    let useMulticast := truthyOpt (propAccess rp "multicast")
      || (match opts.multicast with
          | some mc => mc.enabled
          | none => false)
    some ⟨pattern, data, host, port, useMulticast⟩

/-- The address argument of the client's socket send (udp.client.ts lines
23-24): the configured multicast group address when the effective
multicast flag is set and that address is configured (truthy), otherwise
the host resolved by `formatPacket`. -/
def UdpClientProxy.sendAddress (opts : UdpServerOptions)
    (fmt : ClientFormattedPacket) : Option JValue :=
  if fmt.useMulticast && ((opts.multicast.map (fun mc => mc.address)).getD "" != "") then
    opts.multicast.map (fun mc => JValue.str mc.address)
  else fmt.host

/-- One outbound datagram of the client proxy: payload bytes, destination
port and destination address as handed to `socket.send`. -/
structure ClientOutbound where
  payload : String
  port : JValue
  address : Option JValue

/-- The datagram sent by `UdpClientProxy.publish` (udp.client.ts lines
21-39) and equally by `dispatchEvent` (lines 47-56): the formatted packet
serialized as an object with fields `pattern` and `data`, addressed by
`sendAddress`.  `none` when `formatPacket` threw. -/
def UdpClientProxy.publish (opts : UdpServerOptions)
    (rawPattern data : JValue) : Option ClientOutbound :=
  (UdpClientProxy.formatPacket opts rawPattern data).map fun fmt =>
    ⟨(JValue.obj [("pattern", fmt.pattern), ("data", fmt.data)]).stringify,
     fmt.port, UdpClientProxy.sendAddress opts fmt⟩

/-- The outcome of the client's per-response listener: a crash when an
uncaught exception escapes it, or the delivered `response` field of the
callback's `WritePacket`. -/
inductive DispatcherOutcome where
  | crash (errorName : String)
  | delivered (response : Option JValue)

/-- The `onMessage` listener installed by `UdpClientProxy.publish`
(udp.client.ts lines 28-31): `JSON.parse` of the datagram bytes with no
try/catch (a non-JSON datagram throws a `SyntaxError`), then the parsed
value's `data` property is delivered (`resp.data` throws a `TypeError`
when the datagram parsed to `null`). -/
def UdpClientProxy.onMessage (parsed : Option JValue) : DispatcherOutcome :=
  match parsed with
  | none => DispatcherOutcome.crash "SyntaxError"
  | some JValue.null => DispatcherOutcome.crash "TypeError"
  | some v => DispatcherOutcome.delivered (propAccess v "data")

/-- The wire shape of the authenticated-encryption envelope
(src/udp.interface.ts `EncryptedPacket`); each field holds the byte string
that the base64 text on the wire decodes to. -/
structure EncryptedPacket where
  iv : String
  ciphertext : String
  authTag : String
  signature : String
deriving Repr, DecidableEq

/-- The platform's AES-256-GCM primitive, abstracted: `encrypt key iv
plaintext` yields the ciphertext and the authentication tag; `decrypt key
iv ciphertext authTag` yields the plaintext, or `none` when tag
verification fails. -/
structure GcmCipher where
  encrypt : String → String → String → String × String
  decrypt : String → String → String → String → Option String

/-- `encryptAndSign` (part_003 lines 7-24), with the fresh random IV and
the platform primitives (the GCM cipher and HMAC-SHA256) passed in
explicitly: serialize the payload, encrypt it, then sign
iv ++ ciphertext ++ authTag with the separate HMAC key. -/
def encryptAndSign (C : GcmCipher) (hmacSha256 : String → String → String)
    (aesKey hmacKey iv : String) (payload : JValue) : EncryptedPacket :=
  let plaintext := payload.stringify
  let enc := C.encrypt aesKey iv plaintext
  let ciphertext := enc.1
  let authTag := enc.2
  let messageToSign := iv ++ ciphertext ++ authTag
  let signature := hmacSha256 hmacKey messageToSign
  ⟨iv, ciphertext, authTag, signature⟩

/-- The ways `decryptAndVerify` can fail: the recomputed HMAC differs from
the carried signature, GCM tag verification fails, or the decrypted bytes
are not valid JSON. -/
inductive DecryptError where
  | signatureMismatch
  | authenticationFailure
  | parseFailure
deriving Repr, DecidableEq

/-- `decryptAndVerify` (part_003 lines 26-46), with the platform
primitives passed in explicitly: recompute the HMAC over
iv ++ ciphertext ++ authTag and compare it with the carried signature
(throwing `signatureMismatch` on inequality), only then decrypt with
AES-256-GCM and parse the plaintext as JSON. -/
def decryptAndVerify (C : GcmCipher) (hmacSha256 : String → String → String)
    (jsonParse : String → Option JValue) (aesKey hmacKey : String)
    (packet : EncryptedPacket) : Except DecryptError JValue :=
  let messageToVerify := packet.iv ++ packet.ciphertext ++ packet.authTag
  let expectedSignature := hmacSha256 hmacKey messageToVerify
  if packet.signature ≠ expectedSignature then
    Except.error DecryptError.signatureMismatch
  else
    match C.decrypt aesKey packet.iv packet.ciphertext packet.authTag with
    | none => Except.error DecryptError.authenticationFailure
    | some decrypted =>
      match jsonParse decrypted with
      | none => Except.error DecryptError.parseFailure
      | some payload => Except.ok payload

/-- A toy instance of the abstract GCM interface (the ciphertext is the
plaintext itself, with a fixed tag), used to evaluate the envelope
functions on concrete inputs. -/
def trivialGcm : GcmCipher :=
  ⟨fun _ _ m => (m, "tag"), fun _ _ c _ => some c⟩

/-- A toy keyed MAC (key prepended to the message), used to evaluate the
envelope functions on concrete inputs. -/
def trivialHmac : String → String → String :=
  fun key msg => key ++ msg

/-- A one-point model of `JSON.parse`: recognizes exactly the
serialization of the given value.  Enough to evaluate `decryptAndVerify`
on concrete envelopes. -/
def parseOnly (v : JValue) : String → Option JValue :=
  fun s => if s = v.stringify then some v else none

/-- A registry whose every handler throws synchronously with message
"boom"; used to evaluate the router on a concrete throwing handler. -/
def throwingRegistry : HandlerRegistry :=
  fun _ => some (fun _ _ => HandlerOutcome.throws "boom")

/-- A registry whose every handler returns the single value `null`; used
to evaluate the router's response suppression on a concrete input. -/
def nullReturningRegistry : HandlerRegistry :=
  fun _ => some (fun _ _ => HandlerOutcome.returns [JValue.null])

/-- A value with a retrievable property is an object, hence truthy. -/
theorem truthy_of_propAccess_some (v : JValue) (key : String) (w : JValue)
    (h : propAccess v key = some w) : truthy v = true := by
  cases v <;> first | rfl | exact Option.noConfusion h

/-- C1: the spec's propagation policy says transport/protocol-level errors
never crash the router or dispatcher.  The code violates it twice: a
datagram whose pattern is an object without a string `cmd` makes
`packet.pattern?.cmd.startsWith(...)` throw an uncaught `TypeError` out of
`handlePacket` (for every configuration and registry), and a non-JSON
response datagram makes the client listener's bare `JSON.parse` throw an
uncaught `SyntaxError`. -/
theorem router_and_dispatcher_crash_on_malformed_inputs :
    (∀ (opts : UdpServerOptions) (reg : HandlerRegistry) (rinfo : RemoteInfo) (ts : Int),
      UdpServer.handlePacket opts reg rinfo ts
        (some (JValue.obj [("pattern", JValue.obj []), ("data", JValue.null)]))
        = RouterOutcome.crash "TypeError")
    ∧ UdpClientProxy.onMessage none = DispatcherOutcome.crash "SyntaxError" :=
  ⟨fun _ _ _ _ => rfl, rfl⟩

/-- C2: the claim says a valid-JSON datagram without a `pattern` field gets
the textual "missing pattern" reply.  In the code `rawPattern.host` throws
inside `formatPacket`'s try block whenever the `pattern` property is absent
(or `null`), so such datagrams are answered with the "Invalid JSON format"
reply instead and the dedicated "Missing pattern in message" branch is
unreachable.  Processing does stop with exactly that one reply. -/
theorem missing_pattern_datagram_gets_invalid_json_reply
    (opts : UdpServerOptions) (reg : HandlerRegistry) (rinfo : RemoteInfo) (ts : Int)
    (decoded : JValue)
    (h : propAccess decoded "pattern" = none ∨ propAccess decoded "pattern" = some JValue.null) :
    UdpServer.handlePacket opts reg rinfo ts (some decoded)
      = RouterOutcome.sends [(UdpServer.serialize (JValue.str "Invalid JSON format"), rinfo)] := by
  have hfp : UdpServer.formatPacket opts (some decoded) = none := by
    cases decoded <;> try rfl
    rcases h with h | h <;>
      · simp only [propAccess] at h
        simp [UdpServer.formatPacket, h]
  unfold UdpServer.handlePacket
  rw [hfp]
  rfl

/-- Witness for the C2 theorem: the concrete valid-JSON datagram
`\x7b"data":"x"\x7d` carries no `pattern` field and is answered with the
"Invalid JSON format" reply. -/
theorem missing_pattern_datagram_gets_invalid_json_reply_witness :
    (propAccess (JValue.obj [("data", JValue.str "x")]) "pattern" = none
      ∨ propAccess (JValue.obj [("data", JValue.str "x")]) "pattern" = some JValue.null)
    ∧ UdpServer.handlePacket ⟨none, 3000, none, none⟩ (fun _ => none) ⟨"127.0.0.1", 50000⟩ 0
        (some (JValue.obj [("data", JValue.str "x")]))
      = RouterOutcome.sends
          [(UdpServer.serialize (JValue.str "Invalid JSON format"), ⟨"127.0.0.1", 50000⟩)] :=
  ⟨Or.inl rfl,
    missing_pattern_datagram_gets_invalid_json_reply ⟨none, 3000, none, none⟩ (fun _ => none)
      ⟨"127.0.0.1", 50000⟩ 0 (JValue.obj [("data", JValue.str "x")]) (Or.inl rfl)⟩

/-- C3 counterexample: the claim says `sendMessage` puts the command under
the key `pattern` at the top level of the wire object; the payload actually
produced at a concrete input differs from that encoding. -/
theorem sendMessage_payload_is_not_toplevel_pattern :
    (UdpServer.sendMessage "127.0.0.1" 3000 "UDP:ping" (JValue.str "x")).map
        OutboundDatagram.payload
      ≠ [(JValue.obj [("pattern", JValue.str "UDP:ping"),
          ("data", JValue.str "x")]).stringify] := by
  decide

/-- C3 amended: `sendMessage(host, port, command, data)` sends exactly one
datagram to the given host and port, but its payload is the request object
passed through the server's response serializer, i.e. the JSON encoding of
`\x7bdata: \x7bpattern: command, data: data\x7d\x7d` (the command sits under
`pattern` one level down, inside a top-level `data` wrapper). -/
theorem sendMessage_sends_one_wrapped_datagram
    (targetHost : String) (targetPort : Int) (pattern : String) (data : JValue) :
    UdpServer.sendMessage targetHost targetPort pattern data
      = [⟨(JValue.obj [("data", JValue.obj [("pattern", JValue.str pattern),
            ("data", data)])]).stringify, targetPort, targetHost⟩] := rfl

/-- C10: the client proxy constructor hard-codes the socket family "udp4",
ignoring the `type` option, while the server constructor honors the
configured family with "udp4" as the default; in particular a client
constructed with `type: 'udp6'` still gets a udp4 socket. -/
theorem client_socket_always_udp4_server_honors_type :
    (∀ opts : UdpServerOptions, UdpClientProxy.socketType opts = "udp4")
    ∧ (∀ opts : UdpServerOptions, UdpServer.socketType opts = opts.type.getD "udp4")
    ∧ UdpClientProxy.socketType ⟨some "udp6", 3000, none, none⟩ = "udp4"
    ∧ UdpServer.socketType ⟨some "udp6", 3000, none, none⟩ = "udp6" :=
  ⟨fun _ => rfl, fun _ => rfl, rfl, rfl⟩

/-- C4 counterexample: the claim says the server's check passes for a
command differing from a well-prefixed one only in the casing of the
protocol marker.  With the constant "UDP:", the concrete datagram carrying
the command "udp:ping" is rejected with a prefix-violation error reply. -/
theorem lowercase_command_gets_rejected_reply :
    UdpServer.handlePacket ⟨none, 3000, none, none⟩ (fun _ => none) ⟨"127.0.0.1", 50001⟩ 0
        (some (JValue.obj [("pattern", JValue.str "udp:ping"), ("data", JValue.null)]))
      = RouterOutcome.sends [(UdpServer.serialize
          (JValue.str ("Invalid pattern prefix. Expect prefix: \"" ++ UdpPatternPrefix ++ ":\"")),
          ⟨"127.0.0.1", 50001⟩)] := by
  decide

/-- C4 amended: the server-side check compares the command against the
protocol marker case-sensitively via `startsWith`: every packet whose
string command does not start with the exact constant — including one
differing only in letter case — is answered with the prefix-violation
error reply (and handling stops there). -/
theorem udpServer_rejects_wrong_case_command
    (opts : UdpServerOptions) (reg : HandlerRegistry) (rinfo : RemoteInfo) (ts : Int)
    (parsed : Option JValue) (fp : FormattedPacket) (cmd : String)
    (hfp : UdpServer.formatPacket opts parsed = some fp)
    (hcmd : propAccess fp.pattern "cmd" = some (JValue.str cmd))
    (hpre : jsStartsWith cmd UdpPatternPrefix = false) :
    UdpServer.handlePacket opts reg rinfo ts parsed
      = RouterOutcome.sends [(UdpServer.serialize
          (JValue.str ("Invalid pattern prefix. Expect prefix: \"" ++ UdpPatternPrefix ++ ":\"")),
          rinfo)] := by
  have ht := truthy_of_propAccess_some _ _ _ hcmd
  simp [UdpServer.handlePacket, hfp, ht, hcmd, hpre, UdpServer.sendResponse]

/-- Witness for the C4 amended theorem, instantiated at the datagram
carrying the command "udp:ping" under the constant "UDP:". -/
theorem udpServer_rejects_wrong_case_command_witness :
    (jsStartsWith "udp:ping" UdpPatternPrefix = false)
    ∧ UdpServer.handlePacket ⟨none, 3001, none, none⟩ (fun _ => none) ⟨"192.168.0.9", 50002⟩ 7
        (some (JValue.obj [("pattern", JValue.str "udp:ping"), ("data", JValue.str "d")]))
      = RouterOutcome.sends [(UdpServer.serialize
          (JValue.str ("Invalid pattern prefix. Expect prefix: \"" ++ UdpPatternPrefix ++ ":\"")),
          ⟨"192.168.0.9", 50002⟩)] :=
  ⟨by decide,
    udpServer_rejects_wrong_case_command ⟨none, 3001, none, none⟩ (fun _ => none)
      ⟨"192.168.0.9", 50002⟩ 7
      (some (JValue.obj [("pattern", JValue.str "udp:ping"), ("data", JValue.str "d")]))
      ⟨JValue.obj [("cmd", JValue.str "udp:ping")], JValue.str "d",
        JValue.str "0.0.0.0", JValue.num 3001, false⟩
      "udp:ping" rfl rfl (by decide)⟩

/-- Field equations of the client's `formatPacket` for every pattern it
does not throw on: the destination host prefers the pattern's `host` and
falls back to the configured one, the port likewise, and the effective
multicast flag is the pattern's flag OR-ed with the configured one. -/
theorem client_formatPacket_fields (opts : UdpServerOptions) (rp data : JValue)
    (fmt : ClientFormattedPacket) (h : UdpClientProxy.formatPacket opts rp data = some fmt) :
    fmt.host = (propNullish rp "host").orElse (fun _ => opts.host.map JValue.str)
    ∧ fmt.port = (propNullish rp "port").getD (JValue.num opts.port)
    ∧ fmt.useMulticast = (truthyOpt (propAccess rp "multicast")
        || (match opts.multicast with
            | some mc => mc.enabled
            | none => false)) := by
  cases rp
  case null => exact Option.noConfusion h
  all_goals
    simp only [UdpClientProxy.formatPacket, Option.some.injEq] at h
    subst h
    exact ⟨rfl, rfl, rfl⟩

/-- C5: in the client's Address Resolver, the effective destination host
equals the pattern's `host` when that field is present (non-nullish) and
otherwise the configured default host, and the effective destination port
equals the pattern's `port` when present and otherwise the configured
default port. -/
theorem client_resolves_host_and_port (opts : UdpServerOptions) (rp data : JValue)
    (fmt : ClientFormattedPacket) (h : UdpClientProxy.formatPacket opts rp data = some fmt) :
    (∀ hv, propNullish rp "host" = some hv → fmt.host = some hv)
    ∧ (propNullish rp "host" = none → fmt.host = opts.host.map JValue.str)
    ∧ (∀ pv, propNullish rp "port" = some pv → fmt.port = pv)
    ∧ (propNullish rp "port" = none → fmt.port = JValue.num opts.port) := by
  obtain ⟨hh, hp, -⟩ := client_formatPacket_fields opts rp data fmt h
  refine ⟨?_, ?_, ?_, ?_⟩
  · intro hv hhv; rw [hh, hhv]; rfl
  · intro hn; rw [hh, hn]; rfl
  · intro pv hpv; rw [hp, hpv]; rfl
  · intro hn; rw [hp, hn]; rfl

/-- Witness for the C5 theorem: a pattern carrying `host` "1.2.3.4" and no
`port`, against a client configured with default host "10.0.0.1" and
default port 4000, resolves to host "1.2.3.4" and port 4000. -/
theorem client_resolves_host_and_port_witness :
    UdpClientProxy.formatPacket ⟨none, 4000, some "10.0.0.1", none⟩
        (JValue.obj [("cmd", JValue.str "UDP:p"), ("host", JValue.str "1.2.3.4")])
        (JValue.str "d")
      = some ⟨JValue.obj [("cmd", JValue.str "UDP:p")], JValue.str "d",
          some (JValue.str "1.2.3.4"), JValue.num 4000, false⟩
    ∧ (⟨JValue.obj [("cmd", JValue.str "UDP:p")], JValue.str "d",
          some (JValue.str "1.2.3.4"), JValue.num 4000, false⟩ :
            ClientFormattedPacket).host = some (JValue.str "1.2.3.4")
    ∧ (⟨JValue.obj [("cmd", JValue.str "UDP:p")], JValue.str "d",
          some (JValue.str "1.2.3.4"), JValue.num 4000, false⟩ :
            ClientFormattedPacket).port = JValue.num 4000 :=
  ⟨rfl,
    (client_resolves_host_and_port ⟨none, 4000, some "10.0.0.1", none⟩
      (JValue.obj [("cmd", JValue.str "UDP:p"), ("host", JValue.str "1.2.3.4")])
      (JValue.str "d") _ rfl).1 (JValue.str "1.2.3.4") rfl,
    (client_resolves_host_and_port ⟨none, 4000, some "10.0.0.1", none⟩
      (JValue.obj [("cmd", JValue.str "UDP:p"), ("host", JValue.str "1.2.3.4")])
      (JValue.str "d") _ rfl).2.2.2 rfl⟩

/-- C6: on every client send, when the effective multicast flag (the
pattern's `multicast` OR-ed with the configured `multicast.enabled`, as
`client_formatPacket_fields` shows `useMulticast` to be) is set and a
multicast group address is configured, the address handed to the socket is
that group address — whatever host the resolver computed — while when no
group address is configured the address is the resolved host; the
destination port is the resolver's port in every case. -/
theorem client_multicast_address_override (opts : UdpServerOptions)
    (fmt : ClientFormattedPacket) :
    (∀ mc : UdpMulticastOptions, fmt.useMulticast = true → opts.multicast = some mc →
        mc.address ≠ "" →
        UdpClientProxy.sendAddress opts fmt = some (JValue.str mc.address))
    ∧ (fmt.useMulticast = true →
        (opts.multicast.map UdpMulticastOptions.address).getD "" = "" →
        UdpClientProxy.sendAddress opts fmt = fmt.host)
    ∧ (∀ rp data, (UdpClientProxy.publish opts rp data).map ClientOutbound.port
        = (UdpClientProxy.formatPacket opts rp data).map ClientFormattedPacket.port) := by
  refine ⟨?_, ?_, ?_⟩
  · intro mc hm hmc hne
    simp [UdpClientProxy.sendAddress, hm, hmc, hne]
  · intro hm hn
    simp [UdpClientProxy.sendAddress, hm, hn]
  · intro rp data
    cases hf : UdpClientProxy.formatPacket opts rp data <;>
      simp [UdpClientProxy.publish, hf]

/-- Witness for the C6 theorem: with group "230.185.192.108" configured
and the flag set, a resolver result carrying host "9.9.9.9" is sent to the
group address; with no multicast configuration the same resolver result is
sent to its own host; and a concrete publish carries the resolver's
port through unchanged. -/
theorem client_multicast_address_override_witness :
    UdpClientProxy.sendAddress ⟨none, 4000, none, some ⟨true, "230.185.192.108"⟩⟩
        ⟨JValue.str "UDP:p", JValue.null, some (JValue.str "9.9.9.9"), JValue.num 4000, true⟩
      = some (JValue.str "230.185.192.108")
    ∧ UdpClientProxy.sendAddress ⟨none, 4000, none, none⟩
        ⟨JValue.str "UDP:p", JValue.null, some (JValue.str "9.9.9.9"), JValue.num 4000, true⟩
      = some (JValue.str "9.9.9.9")
    ∧ (UdpClientProxy.publish ⟨none, 4000, none, none⟩ (JValue.str "UDP:p")
          JValue.null).map ClientOutbound.port
      = (UdpClientProxy.formatPacket ⟨none, 4000, none, none⟩ (JValue.str "UDP:p")
          JValue.null).map ClientFormattedPacket.port :=
  ⟨(client_multicast_address_override ⟨none, 4000, none, some ⟨true, "230.185.192.108"⟩⟩
      ⟨JValue.str "UDP:p", JValue.null, some (JValue.str "9.9.9.9"), JValue.num 4000, true⟩).1
      ⟨true, "230.185.192.108"⟩ rfl rfl (by decide),
    (client_multicast_address_override ⟨none, 4000, none, none⟩
      ⟨JValue.str "UDP:p", JValue.null, some (JValue.str "9.9.9.9"), JValue.num 4000, true⟩).2.1
      rfl rfl,
    (client_multicast_address_override ⟨none, 4000, none, none⟩
      ⟨JValue.str "UDP:p", JValue.null, some (JValue.str "9.9.9.9"), JValue.num 4000, true⟩).2.2
      (JValue.str "UDP:p") JValue.null⟩

/-- C7: sealing then opening is the identity on payloads under matching
keys: for any GCM cipher whose decryption inverts its encryption and any
parse function that inverts serialization on the payload, opening the
envelope produced by `encryptAndSign` recomputes an equal HMAC signature,
decrypts successfully with the carried IV and tag, and parses back to the
original payload. -/
theorem decryptAndVerify_encryptAndSign_roundtrip
    (C : GcmCipher) (hmacSha256 : String → String → String)
    (jsonParse : String → Option JValue) (aesKey hmacKey iv : String) (payload : JValue)
    (hdec : ∀ k i m, C.decrypt k i (C.encrypt k i m).1 (C.encrypt k i m).2 = some m)
    (hparse : jsonParse payload.stringify = some payload) :
    decryptAndVerify C hmacSha256 jsonParse aesKey hmacKey
      (encryptAndSign C hmacSha256 aesKey hmacKey iv payload)
      = Except.ok payload := by
  simp only [decryptAndVerify, encryptAndSign]
  rw [if_neg (by simp)]
  rw [hdec aesKey iv payload.stringify]
  simp [hparse]

/-- Witness for the C7 theorem at the toy cipher, the toy MAC, and the
payload "hello". -/
theorem decryptAndVerify_encryptAndSign_roundtrip_witness :
    (∀ k i m, trivialGcm.decrypt k i (trivialGcm.encrypt k i m).1
        (trivialGcm.encrypt k i m).2 = some m)
    ∧ parseOnly (JValue.str "hello") ((JValue.str "hello").stringify)
        = some (JValue.str "hello")
    ∧ decryptAndVerify trivialGcm trivialHmac (parseOnly (JValue.str "hello")) "aes" "mac"
        (encryptAndSign trivialGcm trivialHmac "aes" "mac" "nonce96bits" (JValue.str "hello"))
      = Except.ok (JValue.str "hello") :=
  ⟨fun _ _ _ => rfl, rfl,
    decryptAndVerify_encryptAndSign_roundtrip trivialGcm trivialHmac
      (parseOnly (JValue.str "hello")) "aes" "mac" "nonce96bits" (JValue.str "hello")
      (fun _ _ _ => rfl) rfl⟩

/-- Every list of all-null handler values produces an empty flattened send
list (each null value is suppressed by `sendResponse`). -/
theorem flatten_sendResponse_null (rinfo : RemoteInfo) :
    ∀ vals : List JValue, (∀ v ∈ vals, v = JValue.null) →
      (vals.map (fun v => UdpServer.sendResponse v rinfo)).flatten = [] := by
  intro vals
  induction vals with
  | nil => intro _; rfl
  | cons x xs ih =>
      intro hnull
      have hx : x = JValue.null := hnull x (List.mem_cons_self x xs)
      subst hx
      simp only [List.map_cons, List.flatten_cons]
      rw [ih (fun v hv => hnull v (List.mem_cons_of_mem _ hv))]
      rfl

/-- C8: two conjoined error-handling policies, plus the continuation law.
First, every envelope whose recomputed HMAC over iv ++ ciphertext ++
authTag differs from the carried signature makes `decryptAndVerify` fail
with the signature-mismatch error — for every cipher `C` alike, which is
exactly the statement that the result is fixed before any decryption is
consulted.  Second, a handler that throws synchronously produces exactly
one error response datagram carrying the exception's message, sent to the
original sender; and handling one datagram leaves every later datagram to
be processed exactly as it would be on its own. -/
theorem signature_mismatch_and_sync_throw_policy :
    (∀ (C : GcmCipher) (hmacSha256 : String → String → String)
        (jsonParse : String → Option JValue) (aesKey hmacKey : String)
        (packet : EncryptedPacket),
        packet.signature ≠ hmacSha256 hmacKey
          (packet.iv ++ packet.ciphertext ++ packet.authTag) →
        decryptAndVerify C hmacSha256 jsonParse aesKey hmacKey packet
          = Except.error DecryptError.signatureMismatch)
    ∧ (∀ (opts : UdpServerOptions) (reg : HandlerRegistry) (rinfo : RemoteInfo) (ts : Int)
        (parsed : Option JValue) (fp : FormattedPacket) (cmd : String)
        (handler : JValue → UdpContext → HandlerOutcome) (m : String),
        UdpServer.formatPacket opts parsed = some fp →
        propAccess fp.pattern "cmd" = some (JValue.str cmd) →
        jsStartsWith cmd UdpPatternPrefix = true →
        reg cmd = some handler →
        handler fp.data ⟨rinfo, ts, fp⟩ = HandlerOutcome.throws m →
        UdpServer.handlePacket opts reg rinfo ts parsed
          = RouterOutcome.sends [(UdpServer.serialize
              (JValue.str ("Internal server error. " ++ m)), rinfo)])
    ∧ (∀ (opts : UdpServerOptions) (reg : HandlerRegistry)
        (d : Option JValue × RemoteInfo × Int)
        (rest : List (Option JValue × RemoteInfo × Int)),
        UdpServer.handleDatagrams opts reg (d :: rest)
          = UdpServer.handlePacket opts reg d.2.1 d.2.2 d.1 ::
              UdpServer.handleDatagrams opts reg rest) := by
  refine ⟨?_, ?_, ?_⟩
  · intro C hs jp ak hk pkt hne
    simp only [decryptAndVerify]
    rw [if_pos hne]
  · intro opts reg rinfo ts parsed fp cmd handler m hfp hcmd hpre hreg hres
    have ht := truthy_of_propAccess_some _ _ _ hcmd
    simp [UdpServer.handlePacket, hfp, ht, hcmd, hpre, hreg, hres, UdpServer.sendResponse]
  · intro opts reg d rest
    obtain ⟨p, r, t⟩ := d
    rfl

/-- Witness for the C8 theorem: a concrete envelope whose signature "bad"
differs from the recomputed MAC is rejected with the signature-mismatch
error; a concrete throwing handler yields the single "Internal server
error. boom" reply; and the datagram loop peels one datagram at a time. -/
theorem signature_mismatch_and_sync_throw_policy_witness :
    (("bad" : String) ≠ trivialHmac "mac" ("iv" ++ "ct" ++ "tag"))
    ∧ decryptAndVerify trivialGcm trivialHmac (parseOnly JValue.null) "aes" "mac"
        ⟨"iv", "ct", "tag", "bad"⟩ = Except.error DecryptError.signatureMismatch
    ∧ UdpServer.handlePacket ⟨none, 3000, none, none⟩ throwingRegistry ⟨"10.1.1.5", 60000⟩ 3
        (some (JValue.obj [("pattern", JValue.str "UDP:ping"), ("data", JValue.num 1)]))
      = RouterOutcome.sends [(UdpServer.serialize
          (JValue.str ("Internal server error. " ++ "boom")), ⟨"10.1.1.5", 60000⟩)]
    ∧ UdpServer.handleDatagrams ⟨none, 3000, none, none⟩ throwingRegistry
        [(none, ⟨"10.1.1.5", 60000⟩, 3)]
      = [UdpServer.handlePacket ⟨none, 3000, none, none⟩ throwingRegistry
          ⟨"10.1.1.5", 60000⟩ 3 none] :=
  ⟨by decide,
    signature_mismatch_and_sync_throw_policy.1 trivialGcm trivialHmac
      (parseOnly JValue.null) "aes" "mac" ⟨"iv", "ct", "tag", "bad"⟩ (by decide),
    signature_mismatch_and_sync_throw_policy.2.1 ⟨none, 3000, none, none⟩
      throwingRegistry ⟨"10.1.1.5", 60000⟩ 3
      (some (JValue.obj [("pattern", JValue.str "UDP:ping"), ("data", JValue.num 1)]))
      ⟨JValue.obj [("cmd", JValue.str "UDP:ping")], JValue.num 1,
        JValue.str "0.0.0.0", JValue.num 3000, false⟩
      "UDP:ping" (fun _ _ => HandlerOutcome.throws "boom") "boom"
      rfl rfl (by decide) rfl rfl,
    signature_mismatch_and_sync_throw_policy.2.2 ⟨none, 3000, none, none⟩
      throwingRegistry (none, ⟨"10.1.1.5", 60000⟩, 3) []⟩

/-- C9: a handler invocation whose produced values are all null (or whose
stream yields no values at all) makes the server send zero response
datagrams: the null check in `sendResponse` suppresses every such value,
so no empty or no-op datagram is emitted. -/
theorem null_or_empty_handler_results_send_nothing
    (opts : UdpServerOptions) (reg : HandlerRegistry) (rinfo : RemoteInfo) (ts : Int)
    (parsed : Option JValue) (fp : FormattedPacket) (cmd : String)
    (handler : JValue → UdpContext → HandlerOutcome) (vals : List JValue)
    (hfp : UdpServer.formatPacket opts parsed = some fp)
    (hcmd : propAccess fp.pattern "cmd" = some (JValue.str cmd))
    (hpre : jsStartsWith cmd UdpPatternPrefix = true)
    (hreg : reg cmd = some handler)
    (hres : handler fp.data ⟨rinfo, ts, fp⟩ = HandlerOutcome.returns vals)
    (hnull : ∀ v ∈ vals, v = JValue.null) :
    UdpServer.handlePacket opts reg rinfo ts parsed = RouterOutcome.sends [] := by
  have ht := truthy_of_propAccess_some _ _ _ hcmd
  have hflat := flatten_sendResponse_null rinfo vals hnull
  simp [UdpServer.handlePacket, hfp, ht, hcmd, hpre, hreg, hres, hflat]

/-- Witness for the C9 theorem: a concrete handler returning the single
value null makes the server send no datagram at all. -/
theorem null_or_empty_handler_results_send_nothing_witness :
    (∀ v ∈ [JValue.null], v = JValue.null)
    ∧ UdpServer.handlePacket ⟨none, 3000, none, none⟩ nullReturningRegistry
        ⟨"10.2.2.2", 61000⟩ 5
        (some (JValue.obj [("pattern", JValue.str "UDP:noResponse"),
          ("data", JValue.str "x")]))
      = RouterOutcome.sends [] :=
  ⟨by simp,
    null_or_empty_handler_results_send_nothing ⟨none, 3000, none, none⟩
      nullReturningRegistry ⟨"10.2.2.2", 61000⟩ 5
      (some (JValue.obj [("pattern", JValue.str "UDP:noResponse"),
        ("data", JValue.str "x")]))
      ⟨JValue.obj [("cmd", JValue.str "UDP:noResponse")], JValue.str "x",
        JValue.str "0.0.0.0", JValue.num 3000, false⟩
      "UDP:noResponse" (fun _ _ => HandlerOutcome.returns [JValue.null]) [JValue.null]
      rfl rfl (by decide) rfl rfl (by simp)⟩
